import Mathlib

/-!
Shallow embedding of the runtime core of the `tiborvass/runc` container
engine: the container lifecycle state machine, process-identity
verification, the `/proc/<pid>/stat` parser, the cgroup-manager capability
interface, and the `sigbomb` helper package.

The repository sources available are `libcontainer/container_linux_test.go`
(the tests and the mock cgroup manager / mock process, which pin down the
behaviour of the container operations) and `sigbomb/sigbomb.go`.  The
container implementation itself (`container_linux.go`) is not among the
sources, so its operations are modelled from the specification, checked
against the behaviour required by the repository's own tests.
-/

namespace Runc

/-- The error taxonomy of the spec (§7). -/
inductive Err where
  | NotRunning
  | ProcessNotFound
  | InvalidTransition
  | AlreadyStarted
  | AlreadyPaused
  | ParseError
  | CgroupBackendError
  | Timeout
deriving DecidableEq, Repr

/-! ## Proc stat parser (§4.3) -/

/-- Modelled from the spec: `parseState` is absent from the sources, only its
test `TestParseState` is.  This helper locates the *last* `)` in the
character list and returns the remainder after it, or `none` when the list
contains no `)` at all. -/
def afterLastParen : List Char → Option (List Char)
  | [] => none
  | c :: cs =>
    match afterLastParen cs with
    | some r => some r
    | none => if c = ')' then some cs else none

/-- The first whitespace-separated token of a character list:
drop leading whitespace, then take the maximal non-whitespace run;
`none` when no token exists. -/
def firstToken : List Char → Option (List Char) :=
  fun l =>
    match (l.dropWhile fun c => c.isWhitespace).takeWhile (fun c => !c.isWhitespace) with
    | [] => none
    | t => some t

/-- Modelled from the spec: locate the last `)` of the line, take everything
after it, split the remainder on whitespace; the first token is the state
field and its single character is returned.  Fails with a parse error when
the line has no `)` or the remainder after it is empty. -/
def parseState (data : String) : Except Err Char :=
  match afterLastParen data.toList with
  | none => .error .ParseError
  | some rest =>
    match firstToken rest with
    | none => .error .ParseError
    | some [] => .error .ParseError
    | some (c :: _) => .ok c

/-! ## Cgroup statistics (mirrors `cgroups.Stats` as used by the tests) -/

/-- `cgroups.MemoryData`: the `Usage` counter used by the tests. -/
structure MemoryData where
  usage : Nat := 0
deriving DecidableEq, Repr

/-- `cgroups.MemoryStats`: holds the current memory usage data. -/
structure MemoryStats where
  usage : MemoryData := {}
deriving DecidableEq, Repr

/-- `cgroups.Stats`: the per-controller resource usage snapshot. -/
structure Stats where
  memoryStats : MemoryStats := {}
deriving DecidableEq, Repr

/-! ## Namespaces (mirrors `configs.Namespace`) -/

/-- Namespace types: one of PID, mount, network, UTS, IPC, user (§3). -/
inductive NsType where
  | NEWNS
  | NEWPID
  | NEWNET
  | NEWUTS
  | NEWIPC
  | NEWUSER
deriving DecidableEq, Repr

/-- The fixed mapping from namespace type to the `/proc/<pid>/ns/` file name:
mount→"mnt", pid→"pid", network→"net", uts→"uts", ipc→"ipc", user→"user"
(§6). -/
def nsFile : NsType → String
  | .NEWNS => "mnt"
  | .NEWPID => "pid"
  | .NEWNET => "net"
  | .NEWUTS => "uts"
  | .NEWIPC => "ipc"
  | .NEWUSER => "user"

/-- A configured namespace: its type and an optional external join path
(§3). -/
structure Namespace where
  type : NsType
  path : Option String := none
deriving DecidableEq, Repr

/-- Container configuration: the namespace list (`configs.Config` as used by
the tests). -/
structure Config where
  namespaces : List Namespace := []
deriving DecidableEq, Repr

/-! ## Cgroup manager (§4.4), as realised by the test double
`mockCgroupManager`: a record of the answers its query operations return. -/

/-- The cgroup manager backend, embedded as the results it reports
(exactly the fields of `mockCgroupManager` in the tests): direct member
PIDs, transitive member PIDs, a statistics snapshot and the
controller-name → filesystem-path mapping. -/
structure CgroupManager where
  pids : List Int := []
  allPids : List Int := []
  stats : Stats := {}
  paths : List (String × String) := []
deriving DecidableEq, Repr

/-- `GetPids()`: the PIDs directly registered at this container's cgroup
scope. -/
def CgroupManager.GetPids (m : CgroupManager) : Except Err (List Int) :=
  .ok m.pids

/-- `GetAllPids()`: the transitive closure — every PID in this container's
scope and any nested scopes. -/
def CgroupManager.GetAllPids (m : CgroupManager) : Except Err (List Int) :=
  .ok m.allPids

/-- `GetStats()`: a fresh cgroup statistics snapshot. -/
def CgroupManager.GetStats (m : CgroupManager) : Except Err Stats :=
  .ok m.stats

/-- `GetPaths()`: the controller-name → filesystem-path mapping. -/
def CgroupManager.GetPaths (m : CgroupManager) : List (String × String) :=
  m.paths

/-! ## Container (§3, §4.1) -/

/-- The init process as seen by the container (the `parentProcess`
interface, realised in the tests by `mockProcess`): its PID and its
start-time fingerprint. -/
structure Process where
  pid : Int
  started : String
deriving DecidableEq, Repr

/-- Lifecycle states of the container state machine (§4.1). -/
inductive Status where
  | Created
  | Running
  | Pausing
  | Paused
  | Stopped
  | Destroyed
deriving DecidableEq, Repr

/-- `linuxContainer`: identifier, configuration, optional init process,
owned cgroup manager and current lifecycle state. -/
structure linuxContainer where
  id : String
  config : Config
  initProcess : Option Process := none
  cgroupManager : CgroupManager
  state : Status := .Created
deriving DecidableEq, Repr

/-- Modelled from the spec and the repository's test `TestGetContainerPids`
(the implementation of `Container.Processes()` is absent from the sources):
the test constructs a `mockCgroupManager` whose `allPids` field alone is
populated and requires `Processes()` to return exactly those PIDs, so
`Processes()` reads `GetAllPids()`. -/
def linuxContainer.Processes (c : linuxContainer) : Except Err (List Int) :=
  c.cgroupManager.GetAllPids

/-- The spec's §4.5 wording of `Processes()`, for comparison:
"`Container.Processes()` returns `CgroupManager.GetPids()` — the direct
membership." -/
def ProcessesSpec (c : linuxContainer) : Except Err (List Int) :=
  c.cgroupManager.GetPids

/-- The stable result envelope around a cgroup statistics snapshot
(`libcontainer.Stats` with its `CgroupStats` field). -/
structure StatsEnvelope where
  cgroupStats : Stats
deriving DecidableEq, Repr

/-- Modelled from the spec: `Container.Stats()` wraps
`CgroupManager.GetStats()` into the result envelope. -/
def linuxContainer.Stats (c : linuxContainer) : Except Err StatsEnvelope :=
  match c.cgroupManager.GetStats with
  | .error e => .error e
  | .ok s => .ok { cgroupStats := s }

/-- The externally visible, immutable state snapshot (§3): init PID,
start-time fingerprint, cgroup paths, namespace paths. -/
structure StateSnapshot where
  id : String
  initProcessPid : Int
  initProcessStartTime : String
  cgroupPaths : List (String × String)
  namespacePaths : List (NsType × String)
deriving DecidableEq, Repr

/-- Modelled from the spec: the path recorded for one configured namespace —
an external join path is used verbatim, otherwise the canonical per-process
reference `/proc/<initPid>/ns/<name>` with `<name>` given by `nsFile`
(§4.5 step 3, §6). -/
def namespacePath (initPid : Int) (ns : Namespace) : String :=
  match ns.path with
  | some p => p
  | none => "/proc/" ++ toString initPid ++ "/ns/" ++ nsFile ns.type

/-- Modelled from the spec: `Container.State()` fails with `NotRunning` when
no init process is registered; otherwise it assembles the snapshot from the
registered process's PID and fingerprint, `GetPaths()` verbatim, and the
namespace paths derived by `namespacePath` (§4.5). -/
def linuxContainer.State (c : linuxContainer) : Except Err StateSnapshot :=
  match c.initProcess with
  | none => .error .NotRunning
  | some p =>
    .ok
      { id := c.id
        initProcessPid := p.pid
        initProcessStartTime := p.started
        cgroupPaths := c.cgroupManager.GetPaths
        namespacePaths :=
          c.config.namespaces.map fun ns => (ns.type, namespacePath p.pid ns) }

/-! ## Process-identity verification (§4.2) -/

/-- The kernel's current view of processes: for each PID, the start-time
fingerprint of the live process holding it, or `none` when the PID does not
resolve to a live process. -/
def ProcEnv : Type := Int → Option String

/-- Modelled from the spec: re-read the current fingerprint for the stored
PID and compare with the stored one; the identity is intact exactly when the
PID resolves to a live process whose fingerprint matches (§4.2). -/
def verifyIdentity (env : ProcEnv) (p : Process) : Bool :=
  match env p.pid with
  | none => false
  | some fp => fp == p.started

/-- Modelled from the spec: `Signal(sig)` re-verifies the process identity
before delivering; on drift it fails with `ProcessNotFound` and delivers
nothing.  The second component is the list of `(pid, signal)` deliveries
actually performed. -/
def signalInit (env : ProcEnv) (c : linuxContainer) (sig : Int) :
    Except Err Unit × List (Int × Int) :=
  match c.initProcess with
  | none => (.error .NotRunning, [])
  | some p =>
    if verifyIdentity env p then (.ok (), [(p.pid, sig)])
    else (.error .ProcessNotFound, [])

/-- The signal number of SIGKILL, used by forceful termination. -/
def SIGKILL : Int := 9

/-- Modelled from the spec: termination targets the init process and is
guarded by the same identity verification as `Signal` (§4.2: "Before every
subsequent operation that targets the process (signal, termination,
existence check)"). -/
def terminateInit (env : ProcEnv) (c : linuxContainer) :
    Except Err Unit × List (Int × Int) :=
  signalInit env c SIGKILL

/-- Modelled from the spec: the existence check succeeds exactly when
identity verification does; on drift it reports `ProcessNotFound` and has
no side effect. -/
def checkInitExists (env : ProcEnv) (c : linuxContainer) :
    Except Err Unit × List (Int × Int) :=
  match c.initProcess with
  | none => (.error .NotRunning, [])
  | some p =>
    if verifyIdentity env p then (.ok (), [])
    else (.error .ProcessNotFound, [])

/-! ## Destroy and the lifecycle state machine (§4.1) -/

/-- Observable teardown side effects of `Destroy()`. -/
inductive TeardownEffect where
  | cgroupDestroyed
deriving DecidableEq, Repr

/-- Modelled from the spec: `Destroy()` is legal from any state; it tears
down the cgroup manager, discards the process identity and marks
`Destroyed`.  A second call is a no-op, not an error (§4.1). -/
def linuxContainer.Destroy (c : linuxContainer) :
    Except Err Unit × linuxContainer × List TeardownEffect :=
  if c.state = .Destroyed then (.ok (), c, [])
  else
    (.ok (),
      { c with state := .Destroyed, initProcess := none },
      [.cgroupDestroyed])

/-- The caller-invocable lifecycle operations of the public surface (§6). -/
inductive Op where
  | start
  | signal
  | pause
  | resume
  | destroy
deriving DecidableEq, Repr

/-- The declarative transition table of §4.1: `some s'` when the operation
is legal in the given state and moves to `s'`, `none` when it is not
legal. -/
def transitionTable : Status → Op → Option Status
  | .Created, .start => some .Running
  | _, .start => none
  | .Running, .signal => some .Running
  | .Paused, .signal => some .Paused
  | _, .signal => none
  | .Running, .pause => some .Paused
  | _, .pause => none
  | .Paused, .resume => some .Running
  | _, .resume => none
  | _, .destroy => some .Destroyed

/-- Modelled from the spec: the state-specific error returned when an
operation is invoked in a state where it is not legal — `AlreadyStarted`
for a late `Start`, `NotRunning` for `Signal` outside Running/Paused,
`AlreadyPaused` for `Pause` when already paused, `NotRunning` for `Pause`
otherwise, `InvalidTransition` for the remaining illegal invocations
(§4.1, §7). -/
def illegalError : Status → Op → Err
  | _, .start => .AlreadyStarted
  | _, .signal => .NotRunning
  | .Paused, .pause => .AlreadyPaused
  | _, .pause => .NotRunning
  | _, .resume => .InvalidTransition
  | _, .destroy => .InvalidTransition

/-- Modelled from the spec: the operational lifecycle step — pattern match
on (current state, requested operation); a legal operation yields the
successor state, an illegal one the state-specific error (§4.1). -/
def applyOp (s : Status) (op : Op) : Except Err Status :=
  match op, s with
  | .start, .Created => .ok .Running
  | .start, _ => .error .AlreadyStarted
  | .signal, .Running => .ok .Running
  | .signal, .Paused => .ok .Paused
  | .signal, _ => .error .NotRunning
  | .pause, .Running => .ok .Paused
  | .pause, .Paused => .error .AlreadyPaused
  | .pause, _ => .error .NotRunning
  | .resume, .Paused => .ok .Running
  | .resume, _ => .error .InvalidTransition
  | .destroy, _ => .ok .Destroyed

/-- Run one operation against the stored lifecycle state: a legal operation
updates the state, an error leaves it unchanged. -/
def runOp (s : Status) (op : Op) : Except Err Unit × Status :=
  match applyOp s op with
  | .ok s' => (.ok (), s')
  | .error e => (.error e, s)

/-- Replay a sequence of lifecycle operations through the operational
model, carrying the stored state. -/
def replay (s : Status) : List Op → Status
  | [] => s
  | op :: ops => replay (runOp s op).2 ops

/-- Replay a sequence of lifecycle operations against the declarative
transition table: an entry `none` leaves the state unchanged. -/
def tableReplay (s : Status) : List Op → Status
  | [] => s
  | op :: ops => tableReplay ((transitionTable s op).getD s) ops

/-! ## sigbomb (`sigbomb/sigbomb.go`) -/

/-- The signal number of SIGURG on Linux. -/
def SIGURG : Int := 23

/-- Outcome of `sigbomb.Start`: either a panic (when `os.FindProcess`
fails), or a spawned goroutine targeting the caller's own PID. -/
inductive StartOutcome where
  | panicked
  | spawned (targetPid : Int)
deriving DecidableEq, Repr

/-- `sigbomb.Start`: looks up the caller's own process via
`os.FindProcess(os.Getpid())`; on error it panics, otherwise it spawns the
signalling goroutine aimed at the caller's PID.  `findProcessFails` embeds
whether the `os.FindProcess` call returns an error. -/
def sigbombStart (callerPid : Int) (findProcessFails : Bool) : StartOutcome :=
  if findProcessFails then .panicked else .spawned callerPid

/-- The goroutine body is `for { p.Signal(syscall.SIGURG) }`: a `for` with
no condition and no break, so its continuation condition, evaluated before
every iteration, is constantly true. -/
def sigbombLoopCond (_iteration : Nat) : Bool :=
  true

/-- One iteration of the goroutine loop appends one SIGURG delivery to the
trace of `(pid, signal)` sends. -/
def sigbombLoopBody (targetPid : Int) (trace : List (Int × Int)) :
    List (Int × Int) :=
  trace ++ [(targetPid, SIGURG)]

/-- The delivery trace of the goroutine after `n` iterations. -/
def sigbombTrace (targetPid : Int) : Nat → List (Int × Int)
  | 0 => []
  | n + 1 =>
    if sigbombLoopCond n then
      sigbombLoopBody targetPid (sigbombTrace targetPid n)
    else
      sigbombTrace targetPid n

/-- The loop has terminated by iteration `n` when its continuation
condition was false at some earlier iteration. -/
def sigbombTerminatedBy (n : Nat) : Prop :=
  ∃ k < n, sigbombLoopCond k = false

/-! ## Test fixtures, exactly as constructed by `container_linux_test.go` -/

/-- The container of `TestGetContainerPids`: only the `allPids` field of the
mock cgroup manager is populated. -/
def mockPidsContainer : linuxContainer :=
  { id := "myid"
    config := {}
    cgroupManager := { allPids := [1, 2, 3] } }

/-- The container of `TestGetContainerStats`: the mock manager reports
memory usage 1024. -/
def mockStatsContainer : linuxContainer :=
  { id := "myid"
    config := {}
    cgroupManager :=
      { pids := [1, 2, 3]
        stats := { memoryStats := { usage := { usage := 1024 } } } } }

/-- The container of `TestGetContainerState`: namespaces {pid, mount,
network (external path `/networks/fd`), uts}, a mock init process with
start time "010", and a mock manager with a memory cgroup path.  The test
reads the caller's PID with `os.Getpid()`; it is embedded here as 4902. -/
def mockStateContainer : linuxContainer :=
  { id := "myid"
    config :=
      { namespaces :=
          [ { type := .NEWPID }
            , { type := .NEWNS }
            , { type := .NEWNET, path := some "/networks/fd" }
            , { type := .NEWUTS } ] }
    initProcess := some { pid := 4902, started := "010" }
    cgroupManager :=
      { pids := [1, 2, 3]
        stats := { memoryStats := { usage := { usage := 1024 } } }
        paths := [("memory", "/sys/fs/cgroup/memory/myid")] }
    state := .Created }

/-- A container in `Created` with no init process registered yet. -/
def createdOnlyContainer : linuxContainer :=
  { id := "myid"
    config := {}
    cgroupManager := {} }

/-- A kernel view in which no PID resolves to a live process. -/
def emptyProcEnv : ProcEnv :=
  fun _ => none

/-- A kernel view in which the process holding PID 4902 has start-time
fingerprint "999" — a different process than the stored one. -/
def driftedProcEnv : ProcEnv :=
  fun pid => if pid = 4902 then some "999" else none

/-! ## Stat lines from `TestParseState` -/

/-- The `TestParseState` input whose comm field contains a space and a
colon. -/
def gunicornLine : String :=
  "4902 (gunicorn: maste) S 4885 4902 4902 0 -1 4194560 29683 29929 61 83 78 16 96 17 20 0 1 0 9126532 52965376 1903 18446744073709551615 4194304 7461796 140733928751520 140733928698072 139816984959091 0 0 16781312 137447943 1 0 0 17 3 0 0 9 0 0 9559488 10071156 33050624 140733928758775 140733928758945 140733928758945 140733928759264 0"

/-- The `TestParseState` input with a plain comm field. -/
def catLine : String :=
  "9534 (cat) R 9323 9534 9323 34828 9534 4194304 95 0 0 0 0 0 0 0 20 0 1 0 9214966 7626752 168 18446744073709551615 4194304 4240332 140732237651568 140732237650920 140570710391216 0 0 0 0 0 0 0 17 1 0 0 0 0 0 6340112 6341364 21553152 140732237653865 140732237653885 140732237653885 140732237656047 0"

/-- The `TestParseState` input whose comm field contains `/` and `-`. -/
def irqLine : String :=
  "24767 (irq/44-mei_me) S 2 0 0 0 -1 2129984 0 0 0 0 0 0 0 0 -51 0 1 0 8722075 0 0 18446744073709551615 0 0 0 0 0 0 0 2147483647 0 0 0 0 17 1 50 1 0 0 0 0 0 0 0 0 0 0 0"

/-! # Theorems -/

set_option maxRecDepth 20000

/-- A character list without `)` has no remainder after a last `)`. -/
theorem afterLastParen_eq_none {l : List Char} (h : ')' ∉ l) :
    afterLastParen l = none := by
  induction l with
  | nil => rfl
  | cons c cs ih =>
    have hc : ¬ (c = ')') := fun hc => h (by simp [hc])
    have hcs : ')' ∉ cs := fun hm => h (List.mem_cons_of_mem _ hm)
    simp [afterLastParen, ih hcs, hc]

/-- The remainder after the last `)` of `pre ++ ')' :: rest` is exactly
`rest` whenever `rest` itself contains no `)`. -/
theorem afterLastParen_append (pre : List Char) {rest : List Char}
    (h : ')' ∉ rest) :
    afterLastParen (pre ++ ')' :: rest) = some rest := by
  induction pre with
  | nil => simp [afterLastParen, afterLastParen_eq_none h]
  | cons c cs ih => simp [afterLastParen, ih]

/-- Claim C1 (counterexample): on the exact fixture of
`TestGetContainerPids` — a mock manager whose `allPids` is `[1, 2, 3]` and
whose direct `pids` field is empty — `Processes()` returns `[1, 2, 3]`,
which differs from `GetPids()`; so `Processes()` does not return the direct
membership. -/
theorem processes_ne_direct_pids_on_test_fixture :
    mockPidsContainer.Processes = .ok [1, 2, 3] ∧
    mockPidsContainer.cgroupManager.GetPids = .ok [] ∧
    mockPidsContainer.Processes ≠ mockPidsContainer.cgroupManager.GetPids := by
  refine ⟨rfl, rfl, fun h => ?_⟩
  simp [linuxContainer.Processes, CgroupManager.GetAllPids,
    CgroupManager.GetPids, mockPidsContainer] at h

/-- Claim C1 (amended): `Container.Processes()` returns exactly the
sequence `CgroupManager.GetAllPids()` reports — the transitive closure —
as the repository's test `TestGetContainerPids` requires; on the test
fixture it yields `[1, 2, 3]` while the spec's `GetPids()` reading would
yield `[]`. -/
theorem processes_returns_transitive_pids :
    (∀ c : linuxContainer, c.Processes = c.cgroupManager.GetAllPids) ∧
    mockPidsContainer.Processes = .ok [1, 2, 3] ∧
    ProcessesSpec mockPidsContainer = .ok [] :=
  ⟨fun _ => rfl, rfl, rfl⟩

/-- Claim C2: `parseState` locates the last `)` of the line, splits the
remainder after it on whitespace, and returns the first token's character
as the state code — for every prefix (so the comm field may contain spaces
and parentheses); on the crafted `TestParseState` lines with comm values
"gunicorn: maste", "irq/44-mei_me" and "cat" it yields the state character
immediately following the name. -/
theorem parseState_last_paren_and_crafted_lines :
    (∀ (pre rest : List Char) (c : Char) (ts : List Char),
      ')' ∉ rest → firstToken rest = some (c :: ts) →
      parseState (String.mk (pre ++ ')' :: rest)) = .ok c) ∧
    parseState gunicornLine = .ok 'S' ∧
    parseState irqLine = .ok 'S' ∧
    parseState catLine = .ok 'R' := by
  refine ⟨?_, rfl, rfl, rfl⟩
  intro pre rest c ts hmem htok
  have h1 : (String.mk (pre ++ ')' :: rest)).toList = pre ++ ')' :: rest := rfl
  simp [parseState, h1, afterLastParen_append pre hmem, htok]

/-- Claim C2 witness: a concrete line whose prefix itself contains `)`
(so the last-`)` rule matters) parses to state 'S'. -/
theorem parseState_last_paren_witness :
    (')' ∉ " S 1".toList ∧ firstToken " S 1".toList = some ['S']) ∧
    parseState (String.mk ("0 (a) b".toList ++ ')' :: " S 1".toList)) =
      .ok 'S' :=
  ⟨⟨by decide, by decide⟩,
    parseState_last_paren_and_crafted_lines.1 _ _ 'S' [] (by decide)
      (by decide)⟩

/-- Claim C3: `parseState` fails with a parse error on every line that
contains no `)`, and on every line whose remainder after the last `)` is
empty (i.e. every line ending in `)`). -/
theorem parseState_malformed_errors :
    (∀ s : String, ')' ∉ s.toList → parseState s = .error .ParseError) ∧
    (∀ pre : List Char,
      parseState (String.mk (pre ++ [')'])) = .error .ParseError) := by
  constructor
  · intro s h
    have h2 : afterLastParen s.data = none := afterLastParen_eq_none h
    simp [parseState, String.toList, h2]
  · intro pre
    have h1 : (String.mk (pre ++ [')'])).toList = pre ++ ')' :: [] := rfl
    have h2 : afterLastParen (pre ++ ')' :: []) = some [] :=
      afterLastParen_append pre (by decide)
    simp [parseState, h1, h2, firstToken]

/-- Claim C3 witness: a line with no `)` and a line ending in `)` both
yield a parse error. -/
theorem parseState_malformed_errors_witness :
    (')' ∉ "12345 no comm field here".toList ∧
      parseState "12345 no comm field here" = .error .ParseError) ∧
    parseState (String.mk ("4902 (cat".toList ++ [')'])) =
      .error .ParseError :=
  ⟨⟨by decide, parseState_malformed_errors.1 _ (by decide)⟩,
    parseState_malformed_errors.2 _⟩

/-- Claim C4: whenever `State()` succeeds, every configured namespace with
an external join path appears in the snapshot's namespace paths with that
path verbatim, every other configured namespace appears with the path
`/proc/<initPid>/ns/<name>`, and `<name>` is given by the fixed mapping
mount→"mnt", pid→"pid", network→"net", uts→"uts", ipc→"ipc",
user→"user". -/
theorem state_namespace_paths :
    (∀ (c : linuxContainer) (p : Process) (s : StateSnapshot),
      c.initProcess = some p → c.State = .ok s →
      ∀ ns ∈ c.config.namespaces,
        (∀ ep, ns.path = some ep → (ns.type, ep) ∈ s.namespacePaths) ∧
        (ns.path = none →
          (ns.type, "/proc/" ++ toString p.pid ++ "/ns/" ++ nsFile ns.type)
            ∈ s.namespacePaths)) ∧
    nsFile .NEWNS = "mnt" ∧ nsFile .NEWPID = "pid" ∧
    nsFile .NEWNET = "net" ∧ nsFile .NEWUTS = "uts" ∧
    nsFile .NEWIPC = "ipc" ∧ nsFile .NEWUSER = "user" := by
  refine ⟨?_, rfl, rfl, rfl, rfl, rfl, rfl⟩
  intro c p s hp hs ns hns
  simp only [linuxContainer.State, hp, Except.ok.injEq] at hs
  subst hs
  have hmem :=
    List.mem_map_of_mem (fun ns => (ns.type, namespacePath p.pid ns)) hns
  constructor
  · intro ep hep
    simpa [namespacePath, hep] using hmem
  · intro hep
    simpa [namespacePath, hep] using hmem

/-- The snapshot `TestGetContainerState` expects from
`mockStateContainer`. -/
theorem mockStateContainer_state :
    mockStateContainer.State =
      .ok
        { id := "myid"
          initProcessPid := 4902
          initProcessStartTime := "010"
          cgroupPaths := [("memory", "/sys/fs/cgroup/memory/myid")]
          namespacePaths :=
            [ (.NEWPID, "/proc/4902/ns/pid")
              , (.NEWNS, "/proc/4902/ns/mnt")
              , (.NEWNET, "/networks/fd")
              , (.NEWUTS, "/proc/4902/ns/uts") ] } := by
  rfl

/-- Claim C4 witness: on the `TestGetContainerState` fixture the network
namespace keeps its external path `/networks/fd` verbatim and the pid
namespace gets `/proc/4902/ns/pid`. -/
theorem state_namespace_paths_witness :
    (mockStateContainer.initProcess = some { pid := 4902, started := "010" } ∧
      ({ type := .NEWNET, path := some "/networks/fd" } : Namespace)
        ∈ mockStateContainer.config.namespaces ∧
      ({ type := .NEWPID } : Namespace)
        ∈ mockStateContainer.config.namespaces) ∧
    (.NEWNET, "/networks/fd")
      ∈ [ ((.NEWPID : NsType), "/proc/4902/ns/pid")
          , (.NEWNS, "/proc/4902/ns/mnt")
          , (.NEWNET, "/networks/fd")
          , (.NEWUTS, "/proc/4902/ns/uts") ] ∧
    ((.NEWPID : NsType),
        "/proc/" ++ toString (4902 : Int) ++ "/ns/" ++ nsFile .NEWPID)
      ∈ [ ((.NEWPID : NsType), "/proc/4902/ns/pid")
          , (.NEWNS, "/proc/4902/ns/mnt")
          , (.NEWNET, "/networks/fd")
          , (.NEWUTS, "/proc/4902/ns/uts") ] :=
  ⟨⟨rfl, by decide, by decide⟩,
    (state_namespace_paths.1 mockStateContainer { pid := 4902, started := "010" }
        _ rfl mockStateContainer_state
        { type := .NEWNET, path := some "/networks/fd" } (by decide)).1
      "/networks/fd" rfl,
    (state_namespace_paths.1 mockStateContainer { pid := 4902, started := "010" }
        _ rfl mockStateContainer_state
        { type := .NEWPID } (by decide)).2 rfl⟩

/-- Claim C5: `Stats()` wraps the manager's fresh snapshot into the result
envelope unchanged; in particular, when the manager reports memory usage
1024, `Stats()` succeeds and the envelope's memory usage equals 1024. -/
theorem stats_envelope_preserves_usage :
    ∀ c : linuxContainer,
      c.Stats = .ok { cgroupStats := c.cgroupManager.stats } ∧
      (c.cgroupManager.stats.memoryStats.usage.usage = 1024 →
        c.Stats =
          .ok { cgroupStats :=
            { memoryStats := { usage := { usage := 1024 } } } }) := by
  intro c
  refine ⟨rfl, fun h => ?_⟩
  have h2 : c.cgroupManager.stats =
      { memoryStats := { usage := { usage := 1024 } } } := by
    rcases hs : c.cgroupManager.stats with ⟨⟨⟨u⟩⟩⟩
    rw [hs] at h
    simp only at h
    rw [h]
  have h1 : c.Stats = .ok { cgroupStats := c.cgroupManager.stats } := rfl
  rw [h1, h2]

/-- Claim C5 witness: the `TestGetContainerStats` fixture reports memory
usage 1024 and `Stats()` yields an envelope carrying exactly that value. -/
theorem stats_envelope_preserves_usage_witness :
    mockStatsContainer.cgroupManager.stats.memoryStats.usage.usage = 1024 ∧
    mockStatsContainer.Stats =
      .ok { cgroupStats :=
        { memoryStats := { usage := { usage := 1024 } } } } :=
  ⟨rfl, (stats_envelope_preserves_usage mockStatsContainer).2 rfl⟩

/-- Claim C6: `State()` fails with `NotRunning` exactly while no init
process is registered; with a registered init process it succeeds and the
snapshot's init PID and start time equal the registered process's PID and
start-time fingerprint. -/
theorem state_requires_registered_init :
    ∀ c : linuxContainer,
      (c.initProcess = none → c.State = .error .NotRunning) ∧
      (∀ p, c.initProcess = some p →
        ∃ s, c.State = .ok s ∧ s.initProcessPid = p.pid ∧
          s.initProcessStartTime = p.started) := by
  intro c
  constructor
  · intro h
    simp [linuxContainer.State, h]
  · intro p h
    refine
      ⟨{ id := c.id
         initProcessPid := p.pid
         initProcessStartTime := p.started
         cgroupPaths := c.cgroupManager.GetPaths
         namespacePaths :=
           c.config.namespaces.map fun ns => (ns.type, namespacePath p.pid ns) },
        ?_, rfl, rfl⟩
    simp [linuxContainer.State, h]

/-- Claim C6 witness: a container with no init process yields `NotRunning`;
the `TestGetContainerState` fixture yields a snapshot with PID 4902 and
start time "010". -/
theorem state_requires_registered_init_witness :
    (createdOnlyContainer.initProcess = none ∧
      mockStateContainer.initProcess =
        some { pid := 4902, started := "010" }) ∧
    createdOnlyContainer.State = .error .NotRunning ∧
    (∃ s, mockStateContainer.State = .ok s ∧ s.initProcessPid = 4902 ∧
      s.initProcessStartTime = "010") :=
  ⟨⟨rfl, rfl⟩,
    (state_requires_registered_init createdOnlyContainer).1 rfl,
    (state_requires_registered_init mockStateContainer).2
      { pid := 4902, started := "010" } rfl⟩

/-- Claim C7: whenever the freshly read fingerprint for the stored PID is
absent (no live process) or differs from the stored one, every operation
targeting the init process — signal delivery, termination, the existence
check — fails with `ProcessNotFound` and delivers no signal to whatever
process now holds that PID. -/
theorem drifted_identity_blocks_operations :
    ∀ (env : ProcEnv) (c : linuxContainer) (p : Process) (sig : Int),
      c.initProcess = some p →
      env p.pid ≠ some p.started →
      signalInit env c sig = (.error .ProcessNotFound, []) ∧
      terminateInit env c = (.error .ProcessNotFound, []) ∧
      checkInitExists env c = (.error .ProcessNotFound, []) := by
  intro env c p sig hp hd
  have hv : verifyIdentity env p = false := by
    rcases henv : env p.pid with _ | fp
    · simp [verifyIdentity, henv]
    · have hne : fp ≠ p.started := fun h => hd (by rw [henv, h])
      simp [verifyIdentity, henv, hne]
  refine ⟨?_, ?_, ?_⟩ <;>
    simp [signalInit, terminateInit, checkInitExists, hp, hv]

/-- Claim C7 witness: the stored identity is PID 4902 with fingerprint
"010", but the kernel now reports fingerprint "999" for PID 4902; signal
15, termination and the existence check all fail with `ProcessNotFound`
and deliver nothing. -/
theorem drifted_identity_blocks_operations_witness :
    (mockStateContainer.initProcess =
        some { pid := 4902, started := "010" } ∧
      driftedProcEnv 4902 ≠ some "010") ∧
    signalInit driftedProcEnv mockStateContainer 15 =
      (.error .ProcessNotFound, []) ∧
    terminateInit driftedProcEnv mockStateContainer =
      (.error .ProcessNotFound, []) ∧
    checkInitExists driftedProcEnv mockStateContainer =
      (.error .ProcessNotFound, []) :=
  ⟨⟨rfl, by decide⟩,
    drifted_identity_blocks_operations driftedProcEnv mockStateContainer
      { pid := 4902, started := "010" } 15 rfl (by decide)⟩

/-- Claim C8: `Destroy()` succeeds from every lifecycle state and marks the
container `Destroyed`; a second call in sequence also succeeds, changes
nothing and performs no teardown side effect. -/
theorem destroy_idempotent :
    ∀ c : linuxContainer,
      (c.Destroy).1 = .ok () ∧
      (c.Destroy).2.1.state = .Destroyed ∧
      ((c.Destroy).2.1.Destroy).1 = .ok () ∧
      ((c.Destroy).2.1.Destroy).2.2 = [] ∧
      ((c.Destroy).2.1.Destroy).2.1 = (c.Destroy).2.1 := by
  intro c
  by_cases h : c.state = .Destroyed
  · simp [linuxContainer.Destroy, h]
  · simp [linuxContainer.Destroy, h]

/-- One lifecycle step of the operational model updates the stored state
exactly as the declarative transition table predicts (an illegal operation
leaves it unchanged). -/
theorem runOp_matches_table (s : Status) (op : Op) :
    (runOp s op).2 = (transitionTable s op).getD s := by
  cases s <;> cases op <;> rfl

/-- Claim C9: replaying any sequence of lifecycle operations through the
operational model lands in exactly the state the declarative transition
table of §4.1 predicts; an operation is accepted exactly when the table
has an entry for it, and an operation invoked in a state where it is not
legal returns its state-specific error of the taxonomy and leaves the
lifecycle state unchanged. -/
theorem lifecycle_matches_transition_table :
    (∀ (s : Status) (ops : List Op), replay s ops = tableReplay s ops) ∧
    (∀ (s : Status) (op : Op) (s2 : Status),
      transitionTable s op = some s2 ↔ applyOp s op = .ok s2) ∧
    (∀ (s : Status) (op : Op),
      transitionTable s op = none →
        (runOp s op).1 = .error (illegalError s op) ∧
        (runOp s op).2 = s) := by
  refine ⟨?_, ?_, ?_⟩
  · intro s ops
    induction ops generalizing s with
    | nil => rfl
    | cons op ops ih =>
      rw [replay, tableReplay, runOp_matches_table]
      exact ih _
  · intro s op s2
    cases s <;> cases op <;> simp [transitionTable, applyOp]
  · intro s op h
    cases s <;> cases op <;>
      simp_all [transitionTable, runOp, applyOp, illegalError]

/-- Claim C9 witness: `Start` from `Stopped` has no table entry; it fails
with `AlreadyStarted` and leaves the state `Stopped`; replaying the legal
sequence start, pause, resume, destroy from `Created` agrees with the
table. -/
theorem lifecycle_matches_transition_table_witness :
    (transitionTable .Stopped .start = none) ∧
    ((runOp .Stopped .start).1 = .error (illegalError .Stopped .start) ∧
      (runOp .Stopped .start).2 = .Stopped) ∧
    replay .Created [.start, .pause, .resume, .destroy] =
      tableReplay .Created [.start, .pause, .resume, .destroy] :=
  ⟨rfl,
    lifecycle_matches_transition_table.2.2 .Stopped .start rfl,
    lifecycle_matches_transition_table.1 .Created
      [.start, .pause, .resume, .destroy]⟩

/-- Claim C10: `sigbomb.Start` panics exactly when `os.FindProcess` fails
for the caller's own PID; otherwise it spawns a goroutine whose loop
condition is constantly true — so it never terminates — and whose trace
after `n` iterations is exactly `n` SIGURG deliveries to the calling
process, for every `n`. -/
theorem sigbomb_loop_unbounded :
    (∀ pid : Int, sigbombStart pid false = .spawned pid) ∧
    (∀ pid : Int, sigbombStart pid true = .panicked) ∧
    (∀ n, sigbombLoopCond n = true) ∧
    (∀ n, ¬ sigbombTerminatedBy n) ∧
    (∀ (pid : Int) (n : Nat),
      sigbombTrace pid n = List.replicate n (pid, SIGURG)) := by
  refine ⟨fun _ => rfl, fun _ => rfl, fun _ => rfl, ?_, ?_⟩
  · rintro n ⟨k, _, hk⟩
    simp [sigbombLoopCond] at hk
  · intro pid n
    induction n with
    | zero => rfl
    | succ n ih =>
      rw [sigbombTrace]
      simp [sigbombLoopCond, sigbombLoopBody, ih, ← List.replicate_succ']

/-- Claim C10 witness: with a successful `os.FindProcess`, `Start` from PID
4902 spawns the goroutine; after 3 iterations it has not terminated and has
delivered exactly three SIGURGs to PID 4902. -/
theorem sigbomb_loop_unbounded_witness :
    sigbombStart 4902 false = .spawned 4902 ∧
    ¬ sigbombTerminatedBy 3 ∧
    sigbombTrace 4902 3 = List.replicate 3 (4902, SIGURG) :=
  ⟨sigbomb_loop_unbounded.1 4902,
    sigbomb_loop_unbounded.2.2.2.1 3,
    sigbomb_loop_unbounded.2.2.2.2 4902 3⟩

end Runc
